import Mathlib

/-!
Verification of the nnblackjack basic-strategy generator.

The repository consists of two Python files, `blackjack.py` and
`generate_basic_strategy_data.py`, each defining a pure decision function
`basic_strategy_action(card1, card2, dealer)` over the 13 card ranks,
together with a total-value helper and an enumerator over all 2197 deals.
This file embeds both implementations shallowly and proves properties of
them.
-/

/-- The 13 card ranks: '2'-'9', 'T', 'J', 'Q', 'K', 'A'. -/
inductive Rank
  | r2 | r3 | r4 | r5 | r6 | r7 | r8 | r9 | T | J | Q | K | A
  deriving DecidableEq, Fintype

/-- The RANKS list, in the order of the Python source. -/
def RANKS : List Rank :=
  [.r2, .r3, .r4, .r5, .r6, .r7, .r8, .r9, .T, .J, .Q, .K, .A]

/-- RANK_VALUE dictionary: face value for 2-9, 10 for T/J/Q/K, 11 for Ace. -/
def RANK_VALUE : Rank → Nat
  | .r2 => 2
  | .r3 => 3
  | .r4 => 4
  | .r5 => 5
  | .r6 => 6
  | .r7 => 7
  | .r8 => 8
  | .r9 => 9
  | .T => 10
  | .J => 10
  | .Q => 10
  | .K => 10
  | .A => 11

namespace Blackjack

/-! Embedding of `blackjack.py`: action codes are integers 0-5. -/

def HIT : Nat := 0

def STAND : Nat := 1

def SPLIT : Nat := 2

def DOUBLE_OR_HIT : Nat := 3

def DOUBLE_OR_STAND : Nat := 4

def SURRENDER_OR_HIT : Nat := 5

/-- The ACTION_NAME dictionary (a lookup that may miss, like a Python dict). -/
def ACTION_NAME : Nat → Option String
  | 0 => some "Hit"
  | 1 => some "Stand"
  | 2 => some "Split"
  | 3 => some "DoubleH"
  | 4 => some "DoubleS"
  | 5 => some "Surrender"
  | _ => none

/-- `name_for_action` from blackjack.py. -/
def name_for_action (action : Nat) : Option String :=
  ACTION_NAME action

/-- The pair block of `basic_strategy_action` in blackjack.py (lines 89-109):
a sequence of early returns, with `none` for the 5+5 fall-through. -/
def pair_block (card1_value dealer_value : Nat) : Option Nat :=
  if card1_value = 10 then some STAND
  else if card1_value = 9 then
    some (if dealer_value ∈ ([7, 10, 11] : List Nat) then STAND else SPLIT)
  else if card1_value ∈ ([8, 11] : List Nat) then some SPLIT
  else if card1_value ∈ ([2, 3, 7] : List Nat) then
    some (if dealer_value ≤ 7 then SPLIT else HIT)
  else if card1_value = 6 then some (if dealer_value ≤ 6 then SPLIT else HIT)
  else if card1_value = 4 then
    some (if dealer_value ∈ ([5, 6] : List Nat) then SPLIT else HIT)
  else none

/-- The soft-total block of `basic_strategy_action` in blackjack.py
(lines 111-134). -/
def soft_block (card2_value dealer_value : Nat) : Nat :=
  if card2_value ∈ ([9, 10] : List Nat) then STAND
  else if card2_value = 8 then
    if dealer_value = 6 then DOUBLE_OR_STAND else STAND
  else if card2_value = 7 then
    if dealer_value ≤ 6 then DOUBLE_OR_STAND
    else if dealer_value ≤ 8 then STAND
    else HIT
  else if card2_value = 6 then
    if 3 ≤ dealer_value ∧ dealer_value ≤ 6 then DOUBLE_OR_HIT else HIT
  else if card2_value ∈ ([4, 5] : List Nat) then
    if 4 ≤ dealer_value ∧ dealer_value ≤ 6 then DOUBLE_OR_HIT else HIT
  else
    if dealer_value ∈ ([5, 6] : List Nat) then DOUBLE_OR_HIT else HIT

/-- The hard-total block of `basic_strategy_action` in blackjack.py
(lines 136-175). -/
def hard_block (tot dealer_value : Nat) : Nat :=
  if tot ≥ 17 then STAND
  else if tot = 16 then
    if dealer_value ≤ 6 then STAND
    else if dealer_value ≤ 8 then HIT
    else SURRENDER_OR_HIT
  else if tot = 15 then
    if dealer_value ≤ 6 then STAND
    else if dealer_value = 10 then SURRENDER_OR_HIT
    else HIT
  else if tot ∈ ([13, 14] : List Nat) then
    if dealer_value ≤ 6 then STAND else HIT
  else if tot = 12 then
    if 4 ≤ dealer_value ∧ dealer_value ≤ 6 then STAND else HIT
  else if tot = 11 then DOUBLE_OR_HIT
  else if tot = 10 then
    if dealer_value ≤ 9 then DOUBLE_OR_HIT else HIT
  else if tot = 9 then
    if 3 ≤ dealer_value ∧ dealer_value ≤ 6 then DOUBLE_OR_HIT else HIT
  else HIT

/-- `basic_strategy_action` from blackjack.py: swap an Ace into the card1
slot, then try the pair block, then the soft or hard block. -/
def basic_strategy_action (card1 card2 dealer : Rank) : Nat :=
  let p := if card2 = Rank.A then (card2, card1) else (card1, card2)
  let card1 := p.1
  let card2 := p.2
  let card1_value := RANK_VALUE card1
  let card2_value := RANK_VALUE card2
  let dealer_value := RANK_VALUE dealer
  let pair_result := if card1 = card2 then pair_block card1_value dealer_value else none
  match pair_result with
  | some action => action
  | none =>
    if card1 = Rank.A then soft_block card2_value dealer_value
    else hard_block (card1_value + card2_value) dealer_value

/-- `total` from blackjack.py: sum of the two cards' values, except two
Aces total 12. -/
def total (card1 card2 : Rank) : Nat :=
  if card1 = Rank.A ∧ card2 = Rank.A then 12
  else RANK_VALUE card1 + RANK_VALUE card2

/-- `StrategyRecord`: the dictionary built by `basic_strategy_data_record`
in blackjack.py, with keys card1, card2, total, softness, dealer, action,
action_code. -/
structure StrategyRecord where
  card1 : Rank
  card2 : Rank
  total : Nat
  softness : String
  dealer : Rank
  action : Option String
  action_code : Nat
  deriving DecidableEq

/-- `basic_strategy_data_record` from blackjack.py. -/
def basic_strategy_data_record (card1 card2 dealer : Rank) : StrategyRecord :=
  let action_code := basic_strategy_action card1 card2 dealer
  let action := name_for_action action_code
  { card1 := card1
    card2 := card2
    total := total card1 card2
    softness := if card1 = Rank.A ∨ card2 = Rank.A then "Soft" else "Hard"
    dealer := dealer
    action := action
    action_code := action_code }

/-- `generate_basic_strategy_data` from blackjack.py: one record per
(card1, card2, dealer) triple, card1 outermost, dealer innermost. -/
def generate_basic_strategy_data : List StrategyRecord :=
  RANKS.flatMap fun card1 =>
    RANKS.flatMap fun card2 =>
      RANKS.map fun dealer => basic_strategy_data_record card1 card2 dealer

end Blackjack

namespace GenData

/-! Embedding of `generate_basic_strategy_data.py`: actions are strings. -/

def HIT : String := "Hit"

def STAND : String := "Stand"

def SPLIT : String := "Split"

def DOUBLE_OR_HIT : String := "DoubleH"

def DOUBLE_OR_STAND : String := "DoubleS"

def SURRENDER_OR_HIT : String := "Surrender"

/-- The pair block of `basic_strategy_action` in
generate_basic_strategy_data.py (lines 74-94); note the pair-of-9s branch
is written with the dealer values that Split, the complement of the
formulation in blackjack.py. -/
def pair_block (card1_value dealer_value : Nat) : Option String :=
  if card1_value = 10 then some STAND
  else if card1_value = 9 then
    some (if dealer_value ∈ ([2, 3, 4, 5, 6, 8, 9] : List Nat) then SPLIT else STAND)
  else if card1_value ∈ ([8, 11] : List Nat) then some SPLIT
  else if card1_value ∈ ([2, 3, 7] : List Nat) then
    some (if dealer_value ≤ 7 then SPLIT else HIT)
  else if card1_value = 6 then some (if dealer_value ≤ 6 then SPLIT else HIT)
  else if card1_value = 4 then
    some (if dealer_value ∈ ([5, 6] : List Nat) then SPLIT else HIT)
  else none

/-- The soft-total block of `basic_strategy_action` in
generate_basic_strategy_data.py (lines 96-119). -/
def soft_block (card2_value dealer_value : Nat) : String :=
  if card2_value ∈ ([9, 10] : List Nat) then STAND
  else if card2_value = 8 then
    if dealer_value = 6 then DOUBLE_OR_STAND else STAND
  else if card2_value = 7 then
    if dealer_value ≤ 6 then DOUBLE_OR_STAND
    else if dealer_value ≤ 8 then STAND
    else HIT
  else if card2_value = 6 then
    if 3 ≤ dealer_value ∧ dealer_value ≤ 6 then DOUBLE_OR_HIT else HIT
  else if card2_value ∈ ([4, 5] : List Nat) then
    if 4 ≤ dealer_value ∧ dealer_value ≤ 6 then DOUBLE_OR_HIT else HIT
  else
    if dealer_value ∈ ([5, 6] : List Nat) then DOUBLE_OR_HIT else HIT

/-- The hard-total block of `basic_strategy_action` in
generate_basic_strategy_data.py (lines 121-160). -/
def hard_block (tot dealer_value : Nat) : String :=
  if tot ≥ 17 then STAND
  else if tot = 16 then
    if dealer_value ≤ 6 then STAND
    else if dealer_value ≤ 8 then HIT
    else SURRENDER_OR_HIT
  else if tot = 15 then
    if dealer_value ≤ 6 then STAND
    else if dealer_value = 10 then SURRENDER_OR_HIT
    else HIT
  else if tot ∈ ([13, 14] : List Nat) then
    if dealer_value ≤ 6 then STAND else HIT
  else if tot = 12 then
    if 4 ≤ dealer_value ∧ dealer_value ≤ 6 then STAND else HIT
  else if tot = 11 then DOUBLE_OR_HIT
  else if tot = 10 then
    if dealer_value ≤ 9 then DOUBLE_OR_HIT else HIT
  else if tot = 9 then
    if 3 ≤ dealer_value ∧ dealer_value ≤ 6 then DOUBLE_OR_HIT else HIT
  else HIT

/-- `basic_strategy_action` from generate_basic_strategy_data.py. -/
def basic_strategy_action (card1 card2 dealer : Rank) : String :=
  let p := if card2 = Rank.A then (card2, card1) else (card1, card2)
  let card1 := p.1
  let card2 := p.2
  let card1_value := RANK_VALUE card1
  let card2_value := RANK_VALUE card2
  let dealer_value := RANK_VALUE dealer
  let pair_result := if card1 = card2 then pair_block card1_value dealer_value else none
  match pair_result with
  | some action => action
  | none =>
    if card1 = Rank.A then soft_block card2_value dealer_value
    else hard_block (card1_value + card2_value) dealer_value

/-- `soft_total` from generate_basic_strategy_data.py: sum of the two
cards' values, except two Aces total 12. -/
def soft_total (card1 card2 : Rank) : Nat :=
  if card1 = Rank.A ∧ card2 = Rank.A then 12
  else RANK_VALUE card1 + RANK_VALUE card2

end GenData

/-! Helpers for reasoning about the enumerator. -/

/-- The input triple of a strategy record. -/
def tripleOf (r : Blackjack.StrategyRecord) : Rank × Rank × Rank :=
  (r.card1, r.card2, r.dealer)

/-- All 2197 (card1, card2, dealer) triples, in the enumerator's order. -/
def allTriples : List (Rank × Rank × Rank) :=
  RANKS.flatMap fun c1 => RANKS.flatMap fun c2 => RANKS.map fun d => (c1, c2, d)

lemma tripleOf_record (c1 c2 d : Rank) :
    tripleOf (Blackjack.basic_strategy_data_record c1 c2 d) = (c1, c2, d) := rfl

lemma triples_of_records :
    Blackjack.generate_basic_strategy_data.map tripleOf = allTriples := by
  simp [Blackjack.generate_basic_strategy_data, allTriples, List.map_flatMap,
    List.map_map, Function.comp_def, tripleOf_record]

lemma allTriples_eq_product : allTriples = RANKS ×ˢ (RANKS ×ˢ RANKS) := by
  simp [allTriples, SProd.sprod, List.product, List.map_flatMap, List.map_map,
    Function.comp_def]

lemma RANKS_nodup : RANKS.Nodup := by decide

lemma mem_RANKS (r : Rank) : r ∈ RANKS := by
  cases r <;> decide

lemma gen_length : Blackjack.generate_basic_strategy_data.length = 2197 := by
  have h := congrArg List.length triples_of_records
  rw [List.length_map] at h
  rw [h, allTriples_eq_product, List.length_product, List.length_product]
  rfl

/-! The claims. -/

/-- Claim C1: totality — for every (card1, card2, dealer) triple over the
13-rank set, `basic_strategy_action` in blackjack.py returns one of the six
action codes and the ACTION_NAME dictionary lookup on that code succeeds,
and `basic_strategy_action` in generate_basic_strategy_data.py returns one
of the six action strings; no branch is undefined and no dictionary-key
lookup failure occurs. -/
theorem C1_totality :
    ∀ c1 c2 d : Rank,
      Blackjack.basic_strategy_action c1 c2 d ∈
        ([Blackjack.HIT, Blackjack.STAND, Blackjack.SPLIT, Blackjack.DOUBLE_OR_HIT,
          Blackjack.DOUBLE_OR_STAND, Blackjack.SURRENDER_OR_HIT] : List Nat) ∧
      (Blackjack.ACTION_NAME (Blackjack.basic_strategy_action c1 c2 d)).isSome = true ∧
      GenData.basic_strategy_action c1 c2 d ∈
        ([GenData.HIT, GenData.STAND, GenData.SPLIT, GenData.DOUBLE_OR_HIT,
          GenData.DOUBLE_OR_STAND, GenData.SURRENDER_OR_HIT] : List String) := by
  decide

/-- Claim C2: symmetry — swapping the order of the two player cards never
changes the action returned, in either implementation. -/
theorem C2_symmetry :
    ∀ c1 c2 d : Rank,
      Blackjack.basic_strategy_action c1 c2 d = Blackjack.basic_strategy_action c2 c1 d ∧
      GenData.basic_strategy_action c1 c2 d = GenData.basic_strategy_action c2 c1 d := by
  decide

/-- Claim C3: the two resolver implementations are equivalent — for every
triple, applying ACTION_NAME to the integer code from blackjack.py yields
exactly the action string from generate_basic_strategy_data.py (including
the complementary formulations of the pair-of-9s branch). -/
theorem C3_equivalence :
    ∀ c1 c2 d : Rank,
      Blackjack.ACTION_NAME (Blackjack.basic_strategy_action c1 c2 d) =
        some (GenData.basic_strategy_action c1 c2 d) := by
  decide

/-- Claim C4: the six published fixed points — 8,8 vs T is Split; A,A vs 6
is Split; T,T vs 6 is Stand; 5,6 vs 9 is DoubleOrHit; A,7 vs 2 is
DoubleOrStand; 9,7 vs T is SurrenderOrHit. -/
theorem C4_fixed_points :
    Blackjack.basic_strategy_action Rank.r8 Rank.r8 Rank.T = Blackjack.SPLIT ∧
    Blackjack.basic_strategy_action Rank.A Rank.A Rank.r6 = Blackjack.SPLIT ∧
    Blackjack.basic_strategy_action Rank.T Rank.T Rank.r6 = Blackjack.STAND ∧
    Blackjack.basic_strategy_action Rank.r5 Rank.r6 Rank.r9 = Blackjack.DOUBLE_OR_HIT ∧
    Blackjack.basic_strategy_action Rank.A Rank.r7 Rank.r2 = Blackjack.DOUBLE_OR_STAND ∧
    Blackjack.basic_strategy_action Rank.r9 Rank.r7 Rank.T = Blackjack.SURRENDER_OR_HIT := by
  decide

/-- Claim C5: pair of 9s — for a pair of 9s, both implementations return
Stand when the dealer's numeric value is 7, 10 or 11 (dealer in
{7, T, J, Q, K, A}) and Split for every other dealer rank. -/
theorem C5_pair_of_nines :
    ∀ d : Rank,
      Blackjack.basic_strategy_action Rank.r9 Rank.r9 d =
        (if RANK_VALUE d ∈ ([7, 10, 11] : List Nat) then Blackjack.STAND
         else Blackjack.SPLIT) ∧
      GenData.basic_strategy_action Rank.r9 Rank.r9 d =
        (if RANK_VALUE d ∈ ([7, 10, 11] : List Nat) then GenData.STAND
         else GenData.SPLIT) := by
  decide

set_option synthInstance.maxSize 2000 in
/-- Claim C6: hard 16 — when neither card is an Ace, the hand is not a pair
of 8s, and the card values sum to 16, both implementations return Stand for
dealer value at most 6, Hit for dealer value 7 or 8, and SurrenderOrHit for
dealer value 9 or greater. -/
theorem C6_hard_sixteen :
    ∀ c1 c2 d : Rank, c1 ≠ Rank.A → c2 ≠ Rank.A → ¬(c1 = Rank.r8 ∧ c2 = Rank.r8) →
      RANK_VALUE c1 + RANK_VALUE c2 = 16 →
      Blackjack.basic_strategy_action c1 c2 d =
        (if RANK_VALUE d ≤ 6 then Blackjack.STAND
         else if RANK_VALUE d ≤ 8 then Blackjack.HIT
         else Blackjack.SURRENDER_OR_HIT) ∧
      GenData.basic_strategy_action c1 c2 d =
        (if RANK_VALUE d ≤ 6 then GenData.STAND
         else if RANK_VALUE d ≤ 8 then GenData.HIT
         else GenData.SURRENDER_OR_HIT) := by
  decide

/-- Witness for C6 at (9, 7, T): the hypotheses are satisfiable and the
conclusion follows. -/
theorem C6_hard_sixteen_witness :
    Blackjack.basic_strategy_action Rank.r9 Rank.r7 Rank.T =
      (if RANK_VALUE Rank.T ≤ 6 then Blackjack.STAND
       else if RANK_VALUE Rank.T ≤ 8 then Blackjack.HIT
       else Blackjack.SURRENDER_OR_HIT) ∧
    GenData.basic_strategy_action Rank.r9 Rank.r7 Rank.T =
      (if RANK_VALUE Rank.T ≤ 6 then GenData.STAND
       else if RANK_VALUE Rank.T ≤ 8 then GenData.HIT
       else GenData.SURRENDER_OR_HIT) :=
  C6_hard_sixteen Rank.r9 Rank.r7 Rank.T (by decide) (by decide) (by decide) (by decide)

/-- Claim C7: pair of 5s — for a pair of 5s the pair block returns nothing
(no pair-specific branch fires), the hand is resolved by the hard-total
block as hard 10, and both implementations return DoubleOrHit when the
dealer's value is at most 9 and Hit otherwise. -/
theorem C7_pair_of_fives :
    ∀ d : Rank,
      Blackjack.pair_block (RANK_VALUE Rank.r5) (RANK_VALUE d) = none ∧
      Blackjack.basic_strategy_action Rank.r5 Rank.r5 d =
        Blackjack.hard_block 10 (RANK_VALUE d) ∧
      Blackjack.basic_strategy_action Rank.r5 Rank.r5 d =
        (if RANK_VALUE d ≤ 9 then Blackjack.DOUBLE_OR_HIT else Blackjack.HIT) ∧
      GenData.pair_block (RANK_VALUE Rank.r5) (RANK_VALUE d) = none ∧
      GenData.basic_strategy_action Rank.r5 Rank.r5 d =
        (if RANK_VALUE d ≤ 9 then GenData.DOUBLE_OR_HIT else GenData.HIT) := by
  decide

/-- Claim C8: two-Ace total — `total` in blackjack.py and `soft_total` in
generate_basic_strategy_data.py return 12 on two Aces, and for every other
pair of ranks return the sum of the two ranks' numeric values (T/J/Q/K
valued 10, a single Ace valued 11). -/
theorem C8_two_ace_total :
    Blackjack.total Rank.A Rank.A = 12 ∧
    GenData.soft_total Rank.A Rank.A = 12 ∧
    ∀ c1 c2 : Rank, ¬(c1 = Rank.A ∧ c2 = Rank.A) →
      Blackjack.total c1 c2 = RANK_VALUE c1 + RANK_VALUE c2 ∧
      GenData.soft_total c1 c2 = RANK_VALUE c1 + RANK_VALUE c2 := by
  decide

/-- Witness for C8 at (T, 6): the hypothesis is satisfiable and the sum
case evaluates. -/
theorem C8_two_ace_total_witness :
    Blackjack.total Rank.T Rank.r6 = RANK_VALUE Rank.T + RANK_VALUE Rank.r6 ∧
    GenData.soft_total Rank.T Rank.r6 = RANK_VALUE Rank.T + RANK_VALUE Rank.r6 :=
  C8_two_ace_total.2.2 Rank.T Rank.r6 (by decide)

/-- Claim C9: enumerator completeness — generate_basic_strategy_data yields
exactly 2197 records, their (card1, card2, dealer) triples are pairwise
distinct, and every triple over the 13-rank set appears. -/
theorem C9_enumerator_complete :
    Blackjack.generate_basic_strategy_data.length = 2197 ∧
    (Blackjack.generate_basic_strategy_data.map tripleOf).Nodup ∧
    ∀ c1 c2 d : Rank,
      (c1, c2, d) ∈ Blackjack.generate_basic_strategy_data.map tripleOf := by
  refine ⟨gen_length, ?_, ?_⟩
  · rw [triples_of_records, allTriples_eq_product]
    exact RANKS_nodup.product (RANKS_nodup.product RANKS_nodup)
  · intro c1 c2 d
    rw [triples_of_records, allTriples_eq_product]
    exact List.mem_product.mpr ⟨mem_RANKS c1, List.mem_product.mpr ⟨mem_RANKS c2, mem_RANKS d⟩⟩

/-- Claim C10: Split only on identical ranks — in either implementation, if
the returned action is Split then the two player cards have the same rank
symbol; in particular two distinct ten-valued cards are never split. -/
theorem C10_split_only_pairs :
    ∀ c1 c2 d : Rank,
      (Blackjack.basic_strategy_action c1 c2 d = Blackjack.SPLIT → c1 = c2) ∧
      (GenData.basic_strategy_action c1 c2 d = GenData.SPLIT → c1 = c2) := by
  decide

/-- Witness for C10 at (8, 8, T): both Split hypotheses are satisfiable. -/
theorem C10_split_only_pairs_witness : Rank.r8 = Rank.r8 ∧ Rank.r8 = Rank.r8 :=
  ⟨(C10_split_only_pairs Rank.r8 Rank.r8 Rank.T).1 (by decide),
   (C10_split_only_pairs Rank.r8 Rank.r8 Rank.T).2 (by decide)⟩
